/-
  Verification of the MOF enzyme-cascade reactor model builder
  (pyomo-enzyme-cascade), as a shallow embedding in Lean 4.

  Scalars are embedded as rationals; Pyomo symbolic expressions over the
  model variables become Lean functions of an explicit variable valuation
  (`ModelVars`); Pyomo constraints become `Prop`-valued families indexed
  exactly as the source indexes them; Python exceptions become `Except`
  values.  The exponential used inside symbolic expressions is passed as
  an abstract function `expf` (it is never evaluated at build time in the
  source either); the real exponential is used where a claim needs its
  analytic properties.

  Source files embedded:
    model/utils.py                       (profile builder, pore-count coefficient)
    model/pore_concentration_profile.py  (decay, pore BVP, boundary conditions, flux)
    model/reactor_concentration_profile.py (bulk ODEs, initial conditions)
    model/solve.py                       (robust solve wrapper)
    main.py                              (build_reactor_model)
-/
import Mathlib

/-- The fixed ordered species set `['S1', 'S2', 'S3']` (main.py, `model.Components`). -/
inductive Species where
  | S1
  | S2
  | S3
deriving DecidableEq, Repr

/-- The `decay_coef` dictionary passed to `add_bvp_constraints`: optional
entries for keys `'kA'` and `'kB'`, read with `.get(key, 0.0)`. -/
structure DecayCoef where
  kA? : Option ℚ := none
  kB? : Option ℚ := none
deriving DecidableEq, Repr

/-- Python exceptions raised by the model-building layer. -/
inductive PyErr where
  | valueError (msg : String)
  | attributeError (msg : String)
  | exception (msg : String)
deriving DecidableEq, Repr

/-- The enzyme decay-factor builder, pore_concentration_profile.py lines 12-20:
`if k_decay > 0` the factor is `exp(-k_decay * t)` as a function of time,
otherwise the constant function `1.0`.  `expf` abstracts the exponential
(`pyo.exp` builds a symbolic node; instantiated with `Real.exp` in theorems). -/
def build_decay {α : Type} [LinearOrderedField α] (expf : α → α) (k : α) : α → α :=
  if 0 < k then fun t => expf (-k * t) else fun _ => 1

/-- The `**kwargs` accepted by `enzyme_profile_rule` for the `'step'` shape
(utils.py lines 34-36), read with `.get` and the documented defaults. -/
structure ProfileKwargs where
  x_step_up? : Option ℚ := none
  x_step_down? : Option ℚ := none
  smoothness? : Option ℚ := none
deriving DecidableEq, Repr

/-- `enzyme_profile_rule(model, E_max, start, end, fun, **kwargs)` from
utils.py lines 4-72.  The Pyomo `Expression(model.x, rule=...)` result is
embedded as a function of the pore position `x`; `L` stands for `m.L`.
Validation failures (`ValueError` in the source) are surfaced as
`PyErr.valueError` before any profile expression is built. -/
def enzyme_profile_rule (expf : ℚ → ℚ) (L : ℚ) (E_max : ℚ) (start : ℚ) (end_ : ℚ)
    (fn : String) (kwargs : ProfileKwargs) : Except PyErr (ℚ → ℚ) :=
  if start < 0 ∨ 1 < start ∨ end_ < 0 ∨ 1 < end_ then
    .error (.valueError "start and end must be between 0 and 1")
  else if fn = "linear" then
    .ok (fun x => E_max * (start + (end_ - start) * (x / L)))
  else if fn = "step" then
    let x_step_up := kwargs.x_step_up?.getD (3/10)
    let x_step_down := kwargs.x_step_down?.getD (7/10)
    let smoothness := kwargs.smoothness?.getD 100
    if x_step_up < 0 ∨ 1 < x_step_up then
      .error (.valueError "x_step_up must be between 0 and 1")
    else if x_step_down < 0 ∨ 1 < x_step_down then
      .error (.valueError "x_step_down must be between 0 and 1")
    else if x_step_down ≤ x_step_up then
      .error (.valueError "x_step_up must be less than x_step_down")
    else
      .ok (fun x =>
        let x_frac := x / L
        let step_up_transition := 1 / (1 + expf (-smoothness * (x_frac - x_step_up)))
        let step_down_transition := 1 / (1 + expf (-smoothness * (x_frac - x_step_down)))
        start * E_max * (1 - step_up_transition) +
          end_ * E_max * (step_up_transition - step_down_transition) +
          start * E_max * step_down_transition)
  else
    .error (.valueError ("Unsupported profile type: " ++ fn))

/-- The average enzyme concentration over the discretization points,
utils.py lines 89-105: sort `list(model.x)`, sum the profile values over
the sorted points, divide by the count, and return `0` for an empty point
set.  (Profile evaluation is total here, so the `try/except` around
`pyo.value` never skips a point.) -/
def profile_average (xs : List ℚ) (E_profile : ℚ → ℚ) : ℚ :=
  let x_values := xs.insertionSort (fun a b => a ≤ b)
  let total_enzyme := (x_values.map E_profile).sum
  let count := x_values.length
  if 0 < count then total_enzyme / (count : ℚ) else 0

/-- `calculate_pore_count_coefficient(model, E_profile_expression, E_max)` from
utils.py lines 74-118: the ratio of the reference average (`E_max`) to the
profile average over `list(model.x)` (passed here as `xs`), defaulting to
`1.0` when the average is not positive. -/
def calculate_pore_count_coefficient (xs : List ℚ) (E_profile : ℚ → ℚ) (E_max : ℚ) : ℚ :=
  let avg_enzyme := profile_average xs E_profile
  let ref_enzyme_avg := E_max
  if 0 < avg_enzyme then ref_enzyme_avg / avg_enzyme else 1

/-- The scalar / per-species parameters loaded by `params_initialization`
(config.py values are one instance). -/
structure ModelParams where
  S_initial : Species → ℚ
  tf : ℚ
  Np : ℚ
  L : ℚ
  A : ℚ
  EA : ℚ
  EB : ℚ
  kA : ℚ
  kB : ℚ
  D : Species → ℚ

/-- A valuation of the Pyomo decision variables and their `DerivativeVar`s
(main.py lines 24-30).  Index order follows the source: bulk state by
(species, time); pore state by (species, x, time). -/
structure ModelVars where
  S_0 : Species → ℚ → ℚ
  dS_0dt : Species → ℚ → ℚ
  S_n : Species → ℚ → ℚ → ℚ
  dS_ndx : Species → ℚ → ℚ → ℚ
  d2S_ndx2 : Species → ℚ → ℚ → ℚ

/-- Per-enzyme profile configuration dictionary inside `bvp_kwargs`
(keys `fun`, `start`, `end`, `x_step_up`, `x_step_down`, `smoothness`),
all read with `.get` in the source. -/
structure EnzymeKwargs where
  fn? : Option String := none
  start? : Option ℚ := none
  end_? : Option ℚ := none
  x_step_up? : Option ℚ := none
  x_step_down? : Option ℚ := none
  smoothness? : Option ℚ := none
deriving DecidableEq, Repr

/-- The `**{k: v for k, v in kwargs.items() if k not in ['fun', 'start', 'end']}`
forwarding in pore_concentration_profile.py lines 55 and 64. -/
def EnzymeKwargs.toProfileKwargs (e : EnzymeKwargs) : ProfileKwargs :=
  { x_step_up? := e.x_step_up?
    x_step_down? := e.x_step_down?
    smoothness? := e.smoothness? }

/-- The `bvp_kwargs` dictionary (keys `default_fun`, `adjust_Np`,
`enzymeA`, `enzymeB`), all read with `.get` in the source. -/
structure BvpKwargs where
  default_fun? : Option String := none
  adjust_Np? : Option Bool := none
  enzymeA? : Option EnzymeKwargs := none
  enzymeB? : Option EnzymeKwargs := none
deriving Repr

/-- The components attached to the model by `add_bvp_constraints`:
the two decay expressions, the (co-immobilization only) enzyme spatial
profiles, the pore BVP constraints, the two boundary-condition constraint
families, and the flux expression. -/
structure BuiltBvp where
  decay_A : ℚ → ℚ
  decay_B : ℚ → ℚ
  EA_x_profile : Option (ℚ → ℚ)
  EB_x_profile : Option (ℚ → ℚ)
  pore_bvp : Species → ℚ → ℚ → ModelVars → Prop
  bc1 : Species → ℚ → ModelVars → Prop
  bc2 : Species → ℚ → ModelVars → Prop
  flux : Species → ℚ → ModelVars → ℚ

/-- `add_bvp_constraints(model, immobilization, decay_coef, bvp_kwargs)` from
pore_concentration_profile.py lines 7-117.  `xs` is `list(model.x)` at the
moment `calculate_pore_count_coefficient` reads it; `m.x.first()` is `0`
and `m.x.last()` is `p.L` because `model.x = ContinuousSet(bounds=(0, L))`.
In the co-immobilization branch the source immediately calls
`bvp_kwargs.get(...)`, so `bvp_kwargs = None` raises `AttributeError`
before any constraint or flux expression is created; in the single branch
`bvp_kwargs` is never touched.  An unrecognized scheme raises a plain
`Exception` (line 86). -/
def add_bvp_constraints (expf : ℚ → ℚ) (p : ModelParams) (xs : List ℚ)
    (immobilization : String) (decay_coef : DecayCoef)
    (bvp_kwargs : Option BvpKwargs) : Except PyErr BuiltBvp :=
  let kA_decay := decay_coef.kA?.getD 0
  let kB_decay := decay_coef.kB?.getD 0
  let decay_A := build_decay expf kA_decay
  let decay_B := build_decay expf kB_decay
  if immobilization = "single" then
    .ok {
      decay_A := decay_A
      decay_B := decay_B
      EA_x_profile := none
      EB_x_profile := none
      pore_bvp := fun c x t v =>
        match c with
        | Species.S1 =>
            p.D Species.S1 * v.d2S_ndx2 Species.S1 x t =
              p.EA * decay_A t * p.kA * v.S_n Species.S1 x t
        | Species.S2 =>
            p.D Species.S2 * v.d2S_ndx2 Species.S2 x t =
              p.EB * decay_B t * p.kB * v.S_n Species.S2 x t
        | Species.S3 => True
      bc1 := fun c t v => v.S_n c 0 t = v.S_0 c t
      bc2 := fun c t v => v.dS_ndx c p.L t = 0
      flux := fun c t v => -p.D c * v.dS_ndx c 0 t * p.A * p.Np / 2 }
  else if immobilization = "co-immobilization" then
    match bvp_kwargs with
    | none => .error (.attributeError "NoneType object has no attribute get")
    | some kw =>
      let default_fun := kw.default_fun?.getD "linear"
      let enzymeA_kwargs := kw.enzymeA?.getD {}
      let enzymeB_kwargs := kw.enzymeB?.getD {}
      let EA_fun := enzymeA_kwargs.fn?.getD default_fun
      let EB_fun := enzymeB_kwargs.fn?.getD default_fun
      match enzyme_profile_rule expf p.L p.EA (enzymeA_kwargs.start?.getD 1)
          (enzymeA_kwargs.end_?.getD 0) EA_fun enzymeA_kwargs.toProfileKwargs with
      | .error e => .error e
      | .ok EA_x_profile =>
        match enzyme_profile_rule expf p.L p.EB (enzymeB_kwargs.start?.getD 0)
            (enzymeB_kwargs.end_?.getD 1) EB_fun enzymeB_kwargs.toProfileKwargs with
        | .error e => .error e
        | .ok EB_x_profile =>
          let pore_count_coef :=
            if kw.adjust_Np?.getD false then
              calculate_pore_count_coefficient xs EA_x_profile p.EA
            else 2
          .ok {
            decay_A := decay_A
            decay_B := decay_B
            EA_x_profile := some EA_x_profile
            EB_x_profile := some EB_x_profile
            pore_bvp := fun c x t v =>
              match c with
              | Species.S1 =>
                  p.D Species.S1 * v.d2S_ndx2 Species.S1 x t =
                    EA_x_profile x * decay_A t * p.kA * v.S_n Species.S1 x t
              | Species.S2 =>
                  p.D Species.S2 * v.d2S_ndx2 Species.S2 x t =
                    EB_x_profile x * decay_B t * p.kB * v.S_n Species.S2 x t
                      - EA_x_profile x * decay_A t * p.kA * v.S_n Species.S1 x t
              | Species.S3 =>
                  p.D Species.S3 * v.d2S_ndx2 Species.S3 x t =
                    EB_x_profile x * decay_B t * p.kB * v.S_n Species.S2 x t
            bc1 := fun c t v => v.S_n c 0 t = v.S_0 c t
            bc2 := fun c t v => v.dS_ndx c p.L t = 0
            flux := fun c t v =>
              -p.D c * v.dS_ndx c 0 t * p.A * p.Np * pore_count_coef / 2 }
  else
    .error (.exception "Invalid immobilization scheme!")

/-- The constraints attached by `add_reactor_odes`: one bulk mass-balance
ODE per species over time, and the initial-condition family per species. -/
structure BuiltReactor where
  S1_reactor_ivp : ℚ → ModelVars → Prop
  S2_reactor_ivp : ℚ → ModelVars → Prop
  S3_reactor_ivp : ℚ → ModelVars → Prop
  ic_S_0 : Species → ModelVars → Prop

/-- `add_reactor_odes(model, immobilization)` from
reactor_concentration_profile.py lines 4-56.  `flux` is the expression
family `model.flux` built previously by `add_bvp_constraints`. -/
def add_reactor_odes (p : ModelParams) (flux : Species → ℚ → ModelVars → ℚ)
    (immobilization : String) : Except PyErr BuiltReactor :=
  if immobilization = "co-immobilization" then
    .ok {
      S1_reactor_ivp := fun t v => v.dS_0dt Species.S1 t = -flux Species.S1 t v
      S2_reactor_ivp := fun t v =>
        v.dS_0dt Species.S2 t = flux Species.S1 t v - flux Species.S2 t v
      S3_reactor_ivp := fun t v => v.dS_0dt Species.S3 t = flux Species.S2 t v
      ic_S_0 := fun c v => v.S_0 c 0 = p.S_initial c }
  else if immobilization = "single" then
    .ok {
      S1_reactor_ivp := fun t v => v.dS_0dt Species.S1 t = -flux Species.S1 t v
      S2_reactor_ivp := fun t v =>
        v.dS_0dt Species.S2 t = flux Species.S1 t v - flux Species.S2 t v
      S3_reactor_ivp := fun t v => v.dS_0dt Species.S3 t = flux Species.S2 t v
      ic_S_0 := fun c v => v.S_0 c 0 = p.S_initial c }
  else
    .error (.valueError ("Invalid immobilization scheme: " ++ immobilization))

/-- `build_reactor_model(immobilization, decay_coef, **kwargs)` from
main.py lines 9-38: after declaring parameters, domains and variables, it
calls `add_bvp_constraints` with `bvp_kwargs = kwargs.get('bvp_kwargs')`
(so `none` when the caller omitted it) and then `add_reactor_odes`. -/
def build_reactor_model (expf : ℚ → ℚ) (p : ModelParams) (xs : List ℚ)
    (immobilization : String) (decay_coef : DecayCoef)
    (bvp_kwargs : Option BvpKwargs) : Except PyErr (BuiltBvp × BuiltReactor) := do
  let bvp ← add_bvp_constraints expf p xs immobilization decay_coef bvp_kwargs
  let reactor ← add_reactor_odes p bvp.flux immobilization
  return (bvp, reactor)

/-- `results.solver.termination_condition` values relevant to the caller. -/
inductive TerminationCondition where
  | optimal
  | infeasible
  | maxIterations
  | other (s : String)
deriving DecidableEq, Repr

/-- `results.solver.status` values. -/
inductive SolverStatus where
  | ok
  | warning
  | error
deriving DecidableEq, Repr

/-- The termination-status record returned by `solver.solve` when it does
not raise. -/
structure SolverResults where
  termination_condition : TerminationCondition
  status : SolverStatus
deriving DecidableEq, Repr

/-- An exception raised by `solver.solve` (e.g. a Pyomo `ApplicationError`),
as opposed to a normal return with a non-optimal status. -/
inductive SolveError where
  | solverError (msg : String)
deriving DecidableEq, Repr

/-- The IPOPT option dictionary assembled by `solve_model_robust`
(solve.py lines 71-86), one field per key set by the source. -/
structure SolverOptions where
  max_iter : ℕ
  tol : ℚ
  constr_viol_tol : ℚ
  acceptable_tol : ℚ
  acceptable_iter : ℕ
  mu_strategy : String
  mu_init : ℚ
  bound_relax_factor : ℚ
  honor_original_bounds : String
  nlp_scaling_method : String
  obj_scaling_factor : ℚ
  print_level : ℕ
  linear_solver : String
deriving DecidableEq, Repr

/-- The primary solver configuration of `solve_model_robust`
(solve.py lines 71-88). -/
def robust_options (max_iter : ℕ) (tol : ℚ) (verbose : Bool) : SolverOptions :=
  { max_iter := max_iter
    tol := tol
    constr_viol_tol := tol
    acceptable_tol := 1/10000
    acceptable_iter := 5
    mu_strategy := "adaptive"
    mu_init := 1/100000
    bound_relax_factor := 1/100000000
    honor_original_bounds := "no"
    nlp_scaling_method := "gradient-based"
    obj_scaling_factor := 1
    print_level := if verbose then 5 else 0
    linear_solver := "mumps" }

/-- The relaxed configuration set in the `except` branch of
`solve_model_robust` (solve.py lines 97-104): the primary options updated
with a larger tolerance, larger initial barrier parameter and larger bound
relaxation factor. -/
def relaxed_options (max_iter : ℕ) (tol : ℚ) (verbose : Bool) : SolverOptions :=
  { robust_options max_iter tol verbose with
      max_iter := 5000
      tol := 1/10000
      mu_init := 1/1000
      bound_relax_factor := 1/1000000 }

/-- `solve_model_robust(model, max_iter, tol, verbose)` from solve.py
lines 35-112.  The external solver is an oracle
`solver : SolverOptions → Except SolveError SolverResults` (it either
raises or returns a status record); the model (already discretized in the
source before the solve, which does not affect the control flow embedded
here) is threaded through unchanged.  The second component of the result
records the option sets actually passed to the solver, in call order, so
that retry-count properties can be stated.  Note the source wraps only the
FIRST `solver.solve` in `try`: the retry at line 106 is outside any
handler, so an exception there propagates to the caller. -/
def solve_model_robust {α : Type} (solver : SolverOptions → Except SolveError SolverResults)
    (model : α) (max_iter : ℕ) (tol : ℚ) (verbose : Bool) :
    Except SolveError (α × SolverResults) × List SolverOptions :=
  match solver (robust_options max_iter tol verbose) with
  | .ok results => (.ok (model, results), [robust_options max_iter tol verbose])
  | .error _ =>
      ((solver (relaxed_options max_iter tol verbose)).map (fun results => (model, results)),
        [robust_options max_iter tol verbose, relaxed_options max_iter tol verbose])

/-- Identity stand-in for the abstract symbolic exponential, used by the
concrete evaluation fixtures (no claim depends on its analytic shape). -/
def idExp : ℚ → ℚ := fun q => q

/-- Concrete parameter fixture (values are immaterial to the theorems;
chosen small so concrete evaluations are cheap). -/
def exParams : ModelParams :=
  { S_initial := fun _ => 1
    tf := 480
    Np := 1
    L := 2
    A := 1
    EA := 1
    EB := 1
    kA := 30
    kB := 80
    D := fun _ => 1 }

/-- Concrete variable-valuation fixture. -/
def exVars : ModelVars :=
  { S_0 := fun _ _ => 4
    dS_0dt := fun _ _ => 0
    S_n := fun _ _ _ => 4
    dS_ndx := fun _ _ _ => -1
    d2S_ndx2 := fun _ _ _ => 0 }

/-- Co-immobilization kwargs fixture with the activity-equalization flag on
and a spatially constant enzyme-A profile (start = end = 1), for which the
pore-count correction coefficient evaluates to 1. -/
def exKwAdjust : BvpKwargs :=
  { default_fun? := some "linear"
    adjust_Np? := some true
    enzymeA? := some { start? := some 1, end_? := some 1 }
    enzymeB? := some { start? := some 0, end_? := some 1 } }

/-- C5: for the single topology, for every species and time point (and any
variable valuation), the flux expression equals minus the diffusivity times
the entrance concentration gradient times the pore cross-sectional area
times half the nominal pore count. -/
theorem single_flux_uses_half_pore_count (expf : ℚ → ℚ) (p : ModelParams)
    (xs : List ℚ) (d : DecayCoef) (bk : Option BvpKwargs)
    (c : Species) (t : ℚ) (v : ModelVars) :
    (add_bvp_constraints expf p xs "single" d bk).map (fun m => m.flux c t v) =
      .ok (-(p.D c) * v.dS_ndx c 0 t * p.A * (p.Np / 2)) := by
  simp only [add_bvp_constraints, if_pos rfl, reduceIte, Except.map, Except.ok.injEq]
  ring

/-- C8: the decay-factor builder returns the constant function 1 when the
rate constant is not positive, and `t => exp(-k * t)` when it is positive;
in the positive case the factor equals 1 at `t = 0` and is strictly
decreasing in time. -/
theorem build_decay_spec (k : ℝ) :
    (k ≤ 0 → build_decay Real.exp k = fun _ => 1) ∧
    (0 < k →
      (build_decay Real.exp k = fun t => Real.exp (-k * t)) ∧
        build_decay Real.exp k 0 = 1 ∧ StrictAnti (build_decay Real.exp k)) := by
  constructor
  · intro hk
    unfold build_decay
    rw [if_neg (not_lt.mpr hk)]
  · intro hk
    unfold build_decay
    rw [if_pos hk]
    refine ⟨rfl, by simp, ?_⟩
    intro t1 t2 hlt
    exact Real.exp_lt_exp.mpr (by nlinarith)

/-- Witness for `build_decay_spec` at `k = 1`. -/
theorem build_decay_spec_witness : build_decay Real.exp 1 0 = 1 :=
  ((build_decay_spec 1).2 (by norm_num)).2.1

/-- C7: with in-range fractions the linear profile builder succeeds and the
profile equals `E_max * (start + (end - start) * x / L)` at every position;
in particular with `start = 1, end = 0` (positive pore length, nonnegative
maximum density) it equals `E_max` at the entrance, `0` at the far end, and
is monotonically decreasing in `x` on `[0, L]`. -/
theorem linear_profile_spec (expf : ℚ → ℚ) (L E_max s e : ℚ) (kw : ProfileKwargs)
    (hs0 : 0 ≤ s) (hs1 : s ≤ 1) (he0 : 0 ≤ e) (he1 : e ≤ 1) :
    ∃ prof, enzyme_profile_rule expf L E_max s e "linear" kw = .ok prof ∧
      (∀ x, prof x = E_max * (s + (e - s) * (x / L))) ∧
      (s = 1 → e = 0 → 0 < L → 0 ≤ E_max →
        prof 0 = E_max ∧ prof L = 0 ∧
          ∀ x1 x2, 0 ≤ x1 → x1 ≤ x2 → x2 ≤ L → prof x2 ≤ prof x1) := by
  refine ⟨fun x => E_max * (s + (e - s) * (x / L)), ?_, fun x => rfl, ?_⟩
  · unfold enzyme_profile_rule
    rw [if_neg, if_pos rfl]
    simp only [not_or, not_lt]
    exact ⟨hs0, hs1, he0, he1⟩
  · rintro rfl rfl hL _hE
    refine ⟨by norm_num, ?_, ?_⟩
    · show E_max * (1 + (0 - 1) * (L / L)) = 0
      rw [div_self hL.ne']
      ring
    · intro x1 x2 _h1 h12 _h2L
      have hx : x1 / L ≤ x2 / L := by gcongr
      show E_max * (1 + (0 - 1) * (x2 / L)) ≤ E_max * (1 + (0 - 1) * (x1 / L))
      nlinarith [mul_nonneg _hE (sub_nonneg.mpr hx)]

/-- Witness for `linear_profile_spec`: concrete instance with
`L = 2`, `E_max = 3`, `start = 1`, `end = 0`. -/
theorem linear_profile_spec_witness :
    ∃ prof, enzyme_profile_rule idExp 2 3 1 0 "linear" {} = .ok prof ∧
      (∀ x, prof x = 3 * (1 + (0 - 1) * (x / 2))) ∧
      (1 = (1 : ℚ) → 0 = (0 : ℚ) → 0 < (2 : ℚ) → 0 ≤ (3 : ℚ) →
        prof 0 = 3 ∧ prof 2 = 0 ∧
          ∀ x1 x2, 0 ≤ x1 → x1 ≤ x2 → x2 ≤ 2 → prof x2 ≤ prof x1) :=
  linear_profile_spec idExp 2 3 1 0 {} (by norm_num) (by norm_num) (by norm_num) (by norm_num)

/-- C9: the profile builder rejects out-of-range start/end fractions with a
ValueError (the validation failure the spec taxonomy names
InvalidParameterError), and for the step shape rejects out-of-range or
misordered step positions with a ValueError, in both cases returning the
error instead of any profile expression. -/
theorem profile_validation_spec (expf : ℚ → ℚ) (L E_max s e : ℚ) (fn : String)
    (kw : ProfileKwargs) :
    (s < 0 ∨ 1 < s ∨ e < 0 ∨ 1 < e →
      enzyme_profile_rule expf L E_max s e fn kw =
        .error (.valueError "start and end must be between 0 and 1")) ∧
    (fn = "step" → 0 ≤ s → s ≤ 1 → 0 ≤ e → e ≤ 1 →
      (kw.x_step_up?.getD (3/10) < 0 ∨ 1 < kw.x_step_up?.getD (3/10) ∨
        kw.x_step_down?.getD (7/10) < 0 ∨ 1 < kw.x_step_down?.getD (7/10) ∨
        kw.x_step_down?.getD (7/10) ≤ kw.x_step_up?.getD (3/10)) →
      ∃ msg, enzyme_profile_rule expf L E_max s e fn kw = .error (.valueError msg)) := by
  constructor
  · intro hbad
    unfold enzyme_profile_rule
    rw [if_pos hbad]
  · rintro rfl hs0 hs1 he0 he1 hbad
    unfold enzyme_profile_rule
    rw [if_neg (by simp only [not_or, not_lt]; exact ⟨hs0, hs1, he0, he1⟩),
      if_neg (by decide), if_pos rfl]
    dsimp only
    split_ifs with h1 h2 h3
    · exact ⟨_, rfl⟩
    · exact ⟨_, rfl⟩
    · exact ⟨_, rfl⟩
    · simp only [not_or, not_lt, not_le] at h1 h2 h3
      rcases hbad with h | h | h | h | h
      · exact absurd h (not_lt.mpr h1.1)
      · exact absurd h (not_lt.mpr h1.2)
      · exact absurd h (not_lt.mpr h2.1)
      · exact absurd h (not_lt.mpr h2.2)
      · exact absurd h (not_le.mpr h3)

/-- Witness for `profile_validation_spec`: a step profile with
`x_step_up = 0.8 >= x_step_down = 0.2` is rejected with a ValueError. -/
theorem profile_validation_spec_witness :
    ∃ msg, enzyme_profile_rule idExp 2 3 1 0 "step"
        { x_step_up? := some (8/10), x_step_down? := some (2/10) } =
      .error (.valueError msg) :=
  (profile_validation_spec idExp 2 3 1 0 "step"
      { x_step_up? := some (8/10), x_step_down? := some (2/10) }).2
    rfl (by norm_num) (by norm_num) (by norm_num) (by norm_num)
    (Or.inr (Or.inr (Or.inr (Or.inr (by norm_num)))))

/-- C6: the pore-count correction coefficient equals the reference average
(the maximum density) divided by the profile average over the
discretization points whenever that average is positive; it equals 1 for a
profile spatially constant at the maximum density, is greater than 1 when
the positive average lies below the maximum, and defaults to 1 when the
average is zero. -/
theorem pore_count_coefficient_spec (xs : List ℚ) (prof : ℚ → ℚ) (E_max : ℚ) :
    (0 < profile_average xs prof →
      calculate_pore_count_coefficient xs prof E_max = E_max / profile_average xs prof) ∧
    ((∀ x ∈ xs, prof x = E_max) →
      calculate_pore_count_coefficient xs prof E_max = 1) ∧
    (0 < profile_average xs prof → profile_average xs prof < E_max →
      1 < calculate_pore_count_coefficient xs prof E_max) ∧
    (profile_average xs prof = 0 →
      calculate_pore_count_coefficient xs prof E_max = 1) := by
  refine ⟨?_, ?_, ?_, ?_⟩
  · intro havg
    unfold calculate_pore_count_coefficient
    rw [if_pos havg]
  · intro hconst
    have havg : profile_average xs prof = 0 ∨ profile_average xs prof = E_max := by
      unfold profile_average
      dsimp only
      by_cases hlen : 0 < (xs.insertionSort (fun a b => a ≤ b)).length
      · right
        rw [if_pos hlen]
        have hmem : ∀ y ∈ (xs.insertionSort (fun a b => a ≤ b)).map prof, y = E_max := by
          intro y hy
          rcases List.mem_map.mp hy with ⟨x, hx, rfl⟩
          exact hconst x ((List.perm_insertionSort _ xs).mem_iff.mp hx)
        rw [List.sum_eq_card_nsmul _ _ hmem, List.length_map, nsmul_eq_mul]
        exact mul_div_cancel_left₀ E_max (Nat.cast_pos.mpr hlen).ne'
      · left
        rw [if_neg hlen]
    unfold calculate_pore_count_coefficient
    rcases havg with h | h
    · rw [h, if_neg (lt_irrefl 0)]
    · rw [h]
      by_cases hE : 0 < E_max
      · rw [if_pos hE, div_self hE.ne']
      · rw [if_neg hE]
  · intro havg hlt
    unfold calculate_pore_count_coefficient
    rw [if_pos havg]
    exact (one_lt_div havg).mpr hlt
  · intro havg
    unfold calculate_pore_count_coefficient
    rw [havg, if_neg (lt_irrefl 0)]

/-- Witness for `pore_count_coefficient_spec`: one point, constant profile
value 2, maximum 4 — the coefficient is the ratio 2 and exceeds 1. -/
theorem pore_count_coefficient_spec_witness :
    calculate_pore_count_coefficient [0] (fun _ => 2) 4 =
        4 / profile_average [0] (fun _ => 2) ∧
      1 < calculate_pore_count_coefficient [0] (fun _ => 2) 4 := by
  have h := pore_count_coefficient_spec [0] (fun _ => 2) 4
  have havg : profile_average [0] (fun _ => 2) = 2 := by
    norm_num [profile_average, List.insertionSort, List.orderedInsert]
  exact ⟨h.1 (by rw [havg]; norm_num), h.2.2.1 (by rw [havg]; norm_num) (by rw [havg]; norm_num)⟩

/-- Fallback value used only to extract the payload of a successful build. -/
def defaultBuiltReactor : BuiltReactor :=
  { S1_reactor_ivp := fun _ _ => True
    S2_reactor_ivp := fun _ _ => True
    S3_reactor_ivp := fun _ _ => True
    ic_S_0 := fun _ _ => True }

/-- The reactor constraints built for the single topology on the fixtures. -/
def exReactorBuilt : BuiltReactor :=
  (add_reactor_odes exParams (fun _ _ _ => 0) "single").toOption.getD defaultBuiltReactor

/-- C3: whenever `add_reactor_odes` succeeds (it succeeds exactly for the
two topologies), the emitted bulk equations have the canonical cascade form
`dS1/dt = -flux(S1)`, `dS2/dt = flux(S1) - flux(S2)`, `dS3/dt = flux(S2)`
with initial condition `S_0(c, 0) = S_initial(c)` for every species, and the
two topologies emit literally the same constraint families. -/
theorem reactor_odes_canonical_form (p : ModelParams)
    (flux : Species → ℚ → ModelVars → ℚ) (immobilization : String)
    (r : BuiltReactor) (h : add_reactor_odes p flux immobilization = .ok r) :
    (∀ t v, r.S1_reactor_ivp t v ↔ v.dS_0dt Species.S1 t = -flux Species.S1 t v) ∧
    (∀ t v, r.S2_reactor_ivp t v ↔
      v.dS_0dt Species.S2 t = flux Species.S1 t v - flux Species.S2 t v) ∧
    (∀ t v, r.S3_reactor_ivp t v ↔ v.dS_0dt Species.S3 t = flux Species.S2 t v) ∧
    (∀ c v, r.ic_S_0 c v ↔ v.S_0 c 0 = p.S_initial c) ∧
    add_reactor_odes p flux "single" = add_reactor_odes p flux "co-immobilization" := by
  unfold add_reactor_odes at h
  split_ifs at h with h1 h2
  · injection h with h
    subst h
    exact ⟨fun t v => Iff.rfl, fun t v => Iff.rfl, fun t v => Iff.rfl,
      fun c v => Iff.rfl, rfl⟩
  · injection h with h
    subst h
    exact ⟨fun t v => Iff.rfl, fun t v => Iff.rfl, fun t v => Iff.rfl,
      fun c v => Iff.rfl, rfl⟩

/-- Witness for `reactor_odes_canonical_form` on the fixtures, single topology. -/
theorem reactor_odes_canonical_form_witness :
    exReactorBuilt.ic_S_0 Species.S1 exVars ↔
      exVars.S_0 Species.S1 0 = exParams.S_initial Species.S1 :=
  (reactor_odes_canonical_form exParams (fun _ _ _ => 0) "single"
    exReactorBuilt rfl).2.2.2.1 Species.S1 exVars

/-- Fallback value used only to extract the payload of a successful build. -/
def defaultBuiltBvp : BuiltBvp :=
  { decay_A := fun _ => 1
    decay_B := fun _ => 1
    EA_x_profile := none
    EB_x_profile := none
    pore_bvp := fun _ _ _ _ => True
    bc1 := fun _ _ _ => True
    bc2 := fun _ _ _ => True
    flux := fun _ _ _ => 0 }

/-- The pore constraints built for the single topology on the fixtures. -/
def exSingleBuilt : BuiltBvp :=
  (add_bvp_constraints idExp exParams [0] "single" {} none).toOption.getD defaultBuiltBvp

/-- C4: whenever `add_bvp_constraints` succeeds (i.e. for both topologies),
the boundary-condition constraint `bc1` for every species and time point is
exactly the equation pore concentration at the entrance (`x = 0`, which is
`m.x.first()`) equals the bulk concentration, and `bc2` is exactly the
equation pore concentration gradient at the far end (`x = L`, which is
`m.x.last()`) equals zero. -/
theorem boundary_conditions_spec (expf : ℚ → ℚ) (p : ModelParams) (xs : List ℚ)
    (immobilization : String) (d : DecayCoef) (bk : Option BvpKwargs) (m : BuiltBvp)
    (h : add_bvp_constraints expf p xs immobilization d bk = .ok m)
    (c : Species) (t : ℚ) (v : ModelVars) :
    (m.bc1 c t v ↔ v.S_n c 0 t = v.S_0 c t) ∧
    (m.bc2 c t v ↔ v.dS_ndx c p.L t = 0) := by
  unfold add_bvp_constraints at h
  dsimp only at h
  split_ifs at h with h1 h2
  · injection h with h
    subst h
    exact ⟨Iff.rfl, Iff.rfl⟩
  · rcases bk with _ | kw
    · simp at h
    · dsimp only at h
      split at h
      · simp at h
      · split at h
        · simp at h
        · injection h with h
          subst h
          exact ⟨Iff.rfl, Iff.rfl⟩

/-- Witness for `boundary_conditions_spec` on the fixtures, single topology. -/
theorem boundary_conditions_spec_witness :
    (exSingleBuilt.bc1 Species.S1 0 exVars ↔
      exVars.S_n Species.S1 0 0 = exVars.S_0 Species.S1 0) ∧
    (exSingleBuilt.bc2 Species.S1 0 exVars ↔
      exVars.dS_ndx Species.S1 exParams.L 0 = 0) :=
  boundary_conditions_spec idExp exParams [0] "single" {} none exSingleBuilt rfl
    Species.S1 0 exVars

/-- The pore constraints built for co-immobilization on the fixtures with
the equalization flag on. -/
def exCoBuilt : BuiltBvp :=
  (add_bvp_constraints idExp exParams [0] "co-immobilization" {}
    (some exKwAdjust)).toOption.getD defaultBuiltBvp

/-- C2 counterexample: on the fixtures the enzyme-A profile is spatially
constant at the maximum, so the pore-count correction coefficient is 1;
the claim formula (effective pore count `Np * coefficient`) evaluates to 1
at the chosen species/time/valuation, but the flux the code builds
evaluates to 1/2 — the code divides `Np * coefficient` by 2. -/
theorem co_flux_claim_counterexample :
    exCoBuilt.flux Species.S1 0 exVars = 1/2 ∧
    exCoBuilt.EA_x_profile =
      some (fun x => exParams.EA * (1 + (1 - 1) * (x / exParams.L))) ∧
    -exParams.D Species.S1 * exVars.dS_ndx Species.S1 0 0 * exParams.A *
      (exParams.Np * calculate_pore_count_coefficient [0]
        (fun x => exParams.EA * (1 + (1 - 1) * (x / exParams.L))) exParams.EA) = 1 ∧
    (1/2 : ℚ) ≠ 1 := by
  refine ⟨?_, rfl, ?_, by norm_num⟩
  · norm_num [exCoBuilt, add_bvp_constraints, enzyme_profile_rule, exKwAdjust,
      EnzymeKwargs.toProfileKwargs, calculate_pore_count_coefficient, profile_average,
      List.insertionSort, List.orderedInsert, exParams, exVars, idExp,
      Except.toOption, Option.getD,
      show (("co-immobilization" = "single") = False) from by decide]
  · norm_num [calculate_pore_count_coefficient, profile_average,
      List.insertionSort, List.orderedInsert, exParams, exVars]

/-- C2 as amended: for the co-immobilization topology the flux is minus
diffusivity times entrance gradient times cross-sectional area times an
effective pore count which is `Np * coefficient / 2` (the coefficient
computed from the built enzyme-A profile replaces the constant 2) when the
equalization option is on, and `Np` (i.e. `Np * 2 / 2`) when it is off. -/
theorem co_flux_effective_pore_count (expf : ℚ → ℚ) (p : ModelParams) (xs : List ℚ)
    (d : DecayCoef) (kw : BvpKwargs) (m : BuiltBvp)
    (h : add_bvp_constraints expf p xs "co-immobilization" d (some kw) = .ok m)
    (prof : ℚ → ℚ) (hprof : m.EA_x_profile = some prof)
    (c : Species) (t : ℚ) (v : ModelVars) :
    (kw.adjust_Np?.getD false = true →
      m.flux c t v = -p.D c * v.dS_ndx c 0 t * p.A *
        (p.Np * calculate_pore_count_coefficient xs prof p.EA / 2)) ∧
    (kw.adjust_Np?.getD false = false →
      m.flux c t v = -p.D c * v.dS_ndx c 0 t * p.A * p.Np) := by
  unfold add_bvp_constraints at h
  dsimp only at h
  rw [if_neg (by decide), if_pos rfl] at h
  split at h
  · simp at h
  · split at h
    · simp at h
    · injection h with h
      subst h
      simp only [Option.some.injEq] at hprof
      subst hprof
      constructor
      · intro hadj
        simp only [hadj, reduceIte]
        ring
      · intro hadj
        simp only [hadj, Bool.false_eq_true, if_false]
        ring

/-- Witness for `co_flux_effective_pore_count` on the fixtures. -/
theorem co_flux_effective_pore_count_witness :
    exCoBuilt.flux Species.S1 0 exVars =
      -exParams.D Species.S1 * exVars.dS_ndx Species.S1 0 0 * exParams.A *
        (exParams.Np * calculate_pore_count_coefficient [0]
          (fun x => exParams.EA * (1 + (1 - 1) * (x / exParams.L))) exParams.EA / 2) :=
  (co_flux_effective_pore_count idExp exParams [0] {} exKwAdjust exCoBuilt rfl
    (fun x => exParams.EA * (1 + (1 - 1) * (x / exParams.L))) rfl
    Species.S1 0 exVars).1 rfl

/-- C1 counterexample: with a solver that raises on every invocation,
`solve_model_robust` performs the single retry (two option sets were passed
to the solver) and then lets the second exception propagate to the caller
as an error, instead of surfacing a non-optimal status record. -/
theorem solve_model_robust_raises_past_retry :
    (solve_model_robust (fun _ => Except.error (SolveError.solverError "restoration failed"))
        () 5000 (1/1000000) false).1 =
      Except.error (SolveError.solverError "restoration failed") ∧
    (solve_model_robust (fun _ => Except.error (SolveError.solverError "restoration failed"))
        () 5000 (1/1000000) false).2 =
      [robust_options 5000 (1/1000000) false, relaxed_options 5000 (1/1000000) false] :=
  ⟨rfl, rfl⟩

/-- C1 as amended: the first solver invocation uses the primary options; if
it returns a result (optimal or not) that result is surfaced with no retry;
if it raises, exactly one retry runs with the relaxed options (larger
tolerance, larger initial barrier parameter, larger bound relaxation), and
whatever the retry does — returning a status record or raising — is passed
through to the caller unchanged, so a second exception propagates. -/
theorem solve_model_robust_retry_spec {α : Type}
    (solver : SolverOptions → Except SolveError SolverResults) (model : α)
    (max_iter : ℕ) (tol : ℚ) (verbose : Bool) :
    (∀ r, solver (robust_options max_iter tol verbose) = .ok r →
      solve_model_robust solver model max_iter tol verbose =
        (.ok (model, r), [robust_options max_iter tol verbose])) ∧
    (∀ e, solver (robust_options max_iter tol verbose) = .error e →
      solve_model_robust solver model max_iter tol verbose =
        ((solver (relaxed_options max_iter tol verbose)).map (fun r => (model, r)),
          [robust_options max_iter tol verbose, relaxed_options max_iter tol verbose])) ∧
    relaxed_options max_iter tol verbose =
      { robust_options max_iter tol verbose with
          max_iter := 5000
          tol := 1/10000
          mu_init := 1/1000
          bound_relax_factor := 1/1000000 } := by
  refine ⟨?_, ?_, rfl⟩
  · intro r hr
    unfold solve_model_robust
    rw [hr]
  · intro e he
    unfold solve_model_robust
    rw [he]

/-- Witness for `solve_model_robust_retry_spec`: a solver that returns an
optimal record on the first try is not retried. -/
theorem solve_model_robust_retry_spec_witness :
    solve_model_robust
        (fun _ => Except.ok ⟨TerminationCondition.optimal, SolverStatus.ok⟩)
        () 5000 (1/1000000) false =
      (Except.ok ((), ⟨TerminationCondition.optimal, SolverStatus.ok⟩),
        [robust_options 5000 (1/1000000) false]) :=
  (solve_model_robust_retry_spec
      (fun _ => Except.ok ⟨TerminationCondition.optimal, SolverStatus.ok⟩)
      () 5000 (1/1000000) false).1
    ⟨TerminationCondition.optimal, SolverStatus.ok⟩ rfl

/-- C10: building a co-immobilization model while leaving `bvp_kwargs` at
its default `None` yields no model: `add_bvp_constraints` immediately calls
`.get` on `None` in that branch, so `build_reactor_model` surfaces an
AttributeError (not one of the configuration ValueErrors) before any
constraint or flux expression is created. -/
theorem co_immobilization_requires_bvp_kwargs (expf : ℚ → ℚ) (p : ModelParams)
    (xs : List ℚ) (d : DecayCoef) :
    build_reactor_model expf p xs "co-immobilization" d none =
      .error (.attributeError "NoneType object has no attribute get") := by
  unfold build_reactor_model add_bvp_constraints
  rw [if_neg (by decide), if_pos rfl]
  rfl
